import Mathlib

/-!
Shallow embedding of the configuration and application-construction layer of
the finalfrontier training tool (`src/app.rs`, `src/config.rs`), together with
a trace model of the progress reporter `show_progress` and the SGD
learning-rate schedule.

Machine integers (`u32`, `usize`, `u8`) are modelled as `Nat`; floating-point
hyperparameters (`f32`, `f64`) are modelled as `ℚ`, since the claims below are
about the algebraic structure of the computations, not about rounding.
Fallible construction (`or_exit`, which prints a message and aborts the
process) is modelled with `Except String`: `.error msg` is the abort path with
its descriptive message, `.ok` the successfully and fully constructed value.
Command-line matches are modelled at the post-`str::parse` boundary: each
numeric option of `ArgMatches` carries the result of parsing its string value
(`none` = the string failed to parse), since the string-to-number parsing
itself is `std` library code, not code of this repository.
-/

namespace FinalFrontier

/-- Model types, from `config.rs` (`ModelType`). -/
inductive ModelType
  | SkipGram
  | StructuredSkipGram
  | DirectionalSkipgram
deriving DecidableEq

/-- Conversion of a byte to a `ModelType`, from `config.rs`
(`impl TryFrom<u8> for ModelType`). -/
def ModelType.try_from_u8 : Nat → Except String ModelType
  | 0 => Except.ok ModelType.SkipGram
  | 1 => Except.ok ModelType.StructuredSkipGram
  | 2 => Except.ok ModelType.DirectionalSkipgram
  | n => Except.error ("Unknown model type: " ++ toString n)

/-- Conversion of a string to a `ModelType`, from `config.rs`
(`impl TryFrom<&str> for ModelType`), whose `match` on the string is an
equality chain. -/
def ModelType.try_from_str (model : String) : Except String ModelType :=
  if model = "skipgram" then Except.ok ModelType.SkipGram
  else if model = "structgram" then Except.ok ModelType.StructuredSkipGram
  else if model = "dirgram" then Except.ok ModelType.DirectionalSkipgram
  else Except.error ("Unknown model type: " ++ model)

/-- Loss types, from `config.rs` (`LossType`). -/
inductive LossType
  | LogisticNegativeSampling
deriving DecidableEq

/-- Conversion of a byte to a `LossType`, from `config.rs`
(`impl TryFrom<u8> for LossType`). -/
def LossType.try_from_u8 : Nat → Except String LossType
  | 0 => Except.ok LossType.LogisticNegativeSampling
  | n => Except.error ("Unknown model type: " ++ toString n)

/-- Common embedding model hyperparameters, as constructed by `app.rs`
(`common_config_from_matches`). -/
structure CommonConfig where
  loss : LossType
  dims : Nat
  epochs : Nat
  lr : ℚ
  negative_samples : Nat
  zipf_exponent : ℚ
deriving DecidableEq

/-- Bucket-vocab hyperparameters, as constructed by `app.rs`. -/
structure BucketConfig where
  buckets_exp : Nat
deriving DecidableEq

/-- NGram-vocab hyperparameters, as constructed by `app.rs`. -/
structure NGramConfig where
  min_ngram_count : Nat
deriving DecidableEq

/-- Subword-vocab hyperparameters, as constructed by `app.rs`;
`V` holds the indexer-specific parameters. -/
structure SubwordVocabConfig (V : Type) where
  discard_threshold : ℚ
  min_count : Nat
  min_n : Nat
  max_n : Nat
  indexer : V
deriving DecidableEq

/-- Simple-vocab hyperparameters (no subword indexer). -/
structure SimpleVocabConfig where
  min_count : Nat
  discard_threshold : ℚ
deriving DecidableEq

/-- SkipGram-family hyperparameters. -/
structure SkipGramConfig where
  model : ModelType
  context_size : Nat
deriving DecidableEq

/-- Dependency-embeddings hyperparameters, from `config.rs`
(`DepembedsConfig`). -/
structure DepembedsConfig where
  depth : Nat
  use_root : Bool
  normalize : Bool
  projectivize : Bool
  untyped : Bool
deriving DecidableEq

/-- The vocabulary-configuration variant chosen at configuration time,
from `app.rs` (`enum VocabConfig`). -/
inductive VocabConfig
  | SubwordVocab (c : SubwordVocabConfig BucketConfig)
  | NGramVocab (c : SubwordVocabConfig NGramConfig)
  | SimpleVocab (c : SimpleVocabConfig)
deriving DecidableEq

/-- Meta information about training, from `app.rs` (`struct TrainInfo`). -/
structure TrainInfo where
  corpus : String
  output : String
  n_threads : Nat
  start_datetime : String
  end_datetime : Option String
deriving DecidableEq

/-- `TrainInfo::new`: `start_datetime` is the current datetime (passed in as
`now`, since wall-clock time is ambient state), `end_datetime` is `None`. -/
def TrainInfo.new (corpus output : String) (n_threads : Nat) (now : String) :
    TrainInfo :=
  { corpus := corpus
    output := output
    n_threads := n_threads
    start_datetime := now
    end_datetime := none }

/-- `TrainInfo::set_end`: set the end datetime to the current datetime. -/
def TrainInfo.set_end (t : TrainInfo) (now : String) : TrainInfo :=
  { t with end_datetime := some now }

/-- Parsed command-line matches. String-valued options are carried as the
result of `str::parse` on the user-supplied (or default) value: `none` means
the value failed to parse. `threads` has no default value, so its outer
`Option` is `clap`'s `value_of` result and the inner one the parse result.
Flags (`is_present`) are `Bool`. -/
structure ArgMatches where
  corpus : String
  output : String
  buckets : Option Nat
  context : Option Nat
  context_mincount : Option Nat
  context_discard : Option ℚ
  dependency_depth : Option Nat
  dims : Option Nat
  discard : Option ℚ
  epochs : Option Nat
  lr : Option ℚ
  mincount : Option Nat
  minn : Option Nat
  maxn : Option Nat
  model : String
  ngram_mincount : Option Nat
  ns : Option Nat
  subwords : String
  threads : Option (Option Nat)
  zipf : Option ℚ
  untyped_deps : Bool
  normalize_context : Bool
  projectivize : Bool
  use_root : Bool

/-- `stdinout`'s `or_exit` on a parse result: on failure, abort the run with
the descriptive message. -/
def orExit {α : Type} (o : Option α) (msg : String) : Except String α :=
  match o with
  | some v => Except.ok v
  | none => Except.error msg

/-- `or_exit` on a `TryFrom`-style conversion result: on failure, abort the
run with the caller's descriptive message. -/
def orExitR {α : Type} (r : Except String α) (msg : String) :
    Except String α :=
  match r with
  | Except.ok v => Except.ok v
  | Except.error _ => Except.error msg

/-- `common_config_from_matches` from `app.rs`: parse `dims`, `epochs`, `lr`,
`ns` and `zipf` in source order, aborting on the first failure; the loss is
unconditionally `LogisticNegativeSampling`. -/
def common_config_from_matches (m : ArgMatches) : Except String CommonConfig := do
  let dims ← orExit m.dims "Cannot parse dimensionality"
  let epochs ← orExit m.epochs "Cannot parse number of epochs"
  let lr ← orExit m.lr "Cannot parse learning rate"
  let negative_samples ← orExit m.ns "Cannot parse number of negative samples"
  let zipf_exponent ← orExit m.zipf "Cannot parse exponent zipf distribution"
  Except.ok
    { loss := LossType.LogisticNegativeSampling
      dims := dims
      epochs := epochs
      lr := lr
      negative_samples := negative_samples
      zipf_exponent := zipf_exponent }

/-- `vocab_config_from_matches` from `app.rs`: parse the shared subword
options in source order, then select the variant from the `subwords` option
(`match` on a string is an equality chain; the final arm is `unreachable!`,
modelled as the corresponding panic message). -/
def vocab_config_from_matches (m : ArgMatches) : Except String VocabConfig := do
  let discard_threshold ← orExit m.discard "Cannot parse discard threshold"
  let min_count ← orExit m.mincount "Cannot parse mincount"
  let min_n ← orExit m.minn "Cannot parse minimum n-gram length"
  let max_n ← orExit m.maxn "Cannot parse maximum n-gram length"
  if m.subwords = "buckets" then do
    let buckets_exp ← orExit m.buckets "Cannot parse bucket exponent"
    Except.ok (VocabConfig.SubwordVocab
      { discard_threshold := discard_threshold
        min_count := min_count
        min_n := min_n
        max_n := max_n
        indexer := { buckets_exp := buckets_exp } })
  else if m.subwords = "ngrams" then do
    let min_ngram_count ← orExit m.ngram_mincount "Cannot parse bucket exponent"
    Except.ok (VocabConfig.NGramVocab
      { discard_threshold := discard_threshold
        min_count := min_count
        min_n := min_n
        max_n := max_n
        indexer := { min_ngram_count := min_ngram_count } })
  else if m.subwords = "none" then
    Except.ok (VocabConfig.SimpleVocab
      { min_count := min_count
        discard_threshold := discard_threshold })
  else
    Except.error ("Unhandled vocab type: " ++ m.subwords)

/-- `skipgram_config_from_matches` from `app.rs`. -/
def skipgram_config_from_matches (m : ArgMatches) :
    Except String SkipGramConfig := do
  let context_size ← orExit m.context "Cannot parse context size"
  let model ← orExitR (ModelType.try_from_str m.model) "Cannot parse model type"
  Except.ok { context_size := context_size, model := model }

/-- `depembeds_config_from_matches` from `app.rs`: parse the dependency depth
and read the four flags. -/
def depembeds_config_from_matches (m : ArgMatches) :
    Except String DepembedsConfig := do
  let depth ← orExit m.dependency_depth "Cannot parse dependency depth"
  Except.ok
    { depth := depth
      untyped := m.untyped_deps
      normalize := m.normalize_context
      projectivize := m.projectivize
      use_root := m.use_root }

/-- The worker-thread count from `app.rs`: the parsed `threads` option when
present, else `min(num_cpus / 2, 20)` (`num_cpus::get()` is ambient state,
passed in). -/
def n_threads_from_matches (threads : Option (Option Nat)) (num_cpus : Nat) :
    Except String Nat :=
  match threads with
  | some v => orExit v "Cannot parse number of threads"
  | none => Except.ok (min (num_cpus / 2) 20)

/-- The `SkipGramApp` aggregate from `app.rs`. -/
structure SkipGramApp where
  train_info : TrainInfo
  common_config : CommonConfig
  skipgram_config : SkipGramConfig
  vocab_config : VocabConfig
deriving DecidableEq

/-- `SkipGramApp::new` from `app.rs`, in source evaluation order: thread
count first, then `TrainInfo`, then the three configurations; any parse
failure aborts before a (necessarily complete) app value is produced. -/
def SkipGramApp.new (m : ArgMatches) (num_cpus : Nat) (now : String) :
    Except String SkipGramApp := do
  let corpus := m.corpus
  let output := m.output
  let n_threads ← n_threads_from_matches m.threads num_cpus
  let train_info := TrainInfo.new corpus output n_threads now
  let common_config ← common_config_from_matches m
  let skipgram_config ← skipgram_config_from_matches m
  let vocab_config ← vocab_config_from_matches m
  Except.ok
    { train_info := train_info
      common_config := common_config
      skipgram_config := skipgram_config
      vocab_config := vocab_config }

/-- The `DepembedsApp` aggregate from `app.rs`. -/
structure DepembedsApp where
  train_info : TrainInfo
  common_config : CommonConfig
  depembeds_config : DepembedsConfig
  input_vocab_config : VocabConfig
  output_vocab_config : SimpleVocabConfig
deriving DecidableEq

/-- `DepembedsApp::new` from `app.rs`, in source evaluation order: thread
count, then the output vocabulary built from `context_discard` and
`context_mincount`, then `TrainInfo`, then the remaining configurations (the
input vocabulary from the plain `discard` and `mincount` options). -/
def DepembedsApp.new (m : ArgMatches) (num_cpus : Nat) (now : String) :
    Except String DepembedsApp := do
  let corpus := m.corpus
  let output := m.output
  let n_threads ← n_threads_from_matches m.threads num_cpus
  let discard_threshold ← orExit m.context_discard "Cannot parse discard threshold"
  let min_count ← orExit m.context_mincount "Cannot parse mincount"
  let output_vocab_config : SimpleVocabConfig :=
    { min_count := min_count, discard_threshold := discard_threshold }
  let train_info := TrainInfo.new corpus output n_threads now
  let common_config ← common_config_from_matches m
  let depembeds_config ← depembeds_config_from_matches m
  let input_vocab_config ← vocab_config_from_matches m
  Except.ok
    { train_info := train_info
      common_config := common_config
      depembeds_config := depembeds_config
      input_vocab_config := input_vocab_config
      output_vocab_config := output_vocab_config }

/-- The input vocabulary as seen by `show_progress`: only its number of
types is read. -/
structure InputVocab where
  n_types : Nat
deriving DecidableEq

/-- The training model as seen by `show_progress`: an immutable input
vocabulary and the (racy, mutable) embedding-store contents, which the
progress reporter never touches. -/
structure TrainModel where
  input_vocab : InputVocab
  embeddings : List ℚ
deriving DecidableEq

/-- One poll of the shared SGD training state: the processed-token counter
and the running loss, the only two values the progress reporter reads. -/
structure SGDPoll where
  n_tokens_processed : Nat
  train_loss : ℚ
deriving DecidableEq

/-- The learning rate displayed by `show_progress` in `app.rs`:
`(1 - n_tokens_processed / (epochs * n_tokens)) * lr` over the shared
counter, with `n_tokens` the number of input-vocabulary types. -/
def show_progress_lr (config : CommonConfig) (n_tokens t : Nat) : ℚ :=
  (1 - (t : ℚ) / ((config.epochs * n_tokens : Nat) : ℚ)) * config.lr

/-- Observable actions of one `show_progress` run: progress-bar updates,
message updates, sleeps, and the final `finish`. -/
inductive ProgressEvent
  | set_position (pos : Nat)
  | set_message (loss lr : ℚ)
  | sleep (interval : Nat)
  | finish
deriving DecidableEq

/-- The events of one loop iteration of `show_progress`: compute the display
learning rate, set the bar position, set the message, sleep for the
caller-supplied update interval. -/
def poll_events (config : CommonConfig) (n_tokens update_interval : Nat)
    (s : SGDPoll) : List ProgressEvent :=
  [ ProgressEvent.set_position s.n_tokens_processed,
    ProgressEvent.set_message s.train_loss
      (show_progress_lr config n_tokens s.n_tokens_processed),
    ProgressEvent.sleep update_interval ]

/-- The polling loop of `show_progress` from `app.rs`, over the sequence of
values the shared counter/loss take at successive polls (the counter is
mutated concurrently by the worker threads; the reporter only reads it).
Returns `none` when the poll sequence is exhausted before the counter reaches
`n_tokens * epochs` (the loop would still be running), and `some events`
with a trailing `finish` once a poll sees the counter at or past the
target. -/
def show_progress_loop (config : CommonConfig) (n_tokens update_interval : Nat) :
    List SGDPoll → Option (List ProgressEvent)
  | [] => none
  | s :: rest =>
    if s.n_tokens_processed < n_tokens * config.epochs then
      (show_progress_loop config n_tokens update_interval rest).map
        (fun evs => poll_events config n_tokens update_interval s ++ evs)
    else
      some [ProgressEvent.finish]

/-- `show_progress` from `app.rs`: reads the number of input-vocabulary
types once from the (immutable) model, then runs the polling loop. A pure
function of the configuration, the model and the observed polls: it writes
no SGD or model state. -/
def show_progress (config : CommonConfig) (model : TrainModel)
    (update_interval : Nat) (polls : List SGDPoll) :
    Option (List ProgressEvent) :=
  show_progress_loop config model.input_vocab.n_types update_interval polls

/-- Modelled from the spec: the per-caller SGD learning-rate schedule lives
in the `sgd` module, which is not among the provided sources; §4.3 specifies
"`lr = initial_lr * (1 − tokens_processed / total_tokens_target)`, floored at
a small positive epsilon to avoid a zero or negative rate". -/
def sgd_learning_rate (initial_lr eps : ℚ)
    (tokens_processed total_tokens_target : Nat) : ℚ :=
  let lr := initial_lr *
    (1 - (tokens_processed : ℚ) / (total_tokens_target : ℚ))
  if lr < eps then eps else lr

/-- Bind on a successful `Except` computation. -/
theorem ok_bind {α β : Type} (a : α) (f : α → Except String β) :
    (Except.ok a >>= f) = f a := rfl

/-- Bind on a failed `Except` computation. -/
theorem error_bind {α β : Type} (msg : String) (f : α → Except String β) :
    ((Except.error msg : Except String α) >>= f) = Except.error msg := rfl

/-- A bound `Except` computation succeeds exactly when both stages do. -/
theorem bind_eq_ok_iff {α β : Type} (x : Except String α)
    (f : α → Except String β) (b : β) :
    (x >>= f) = Except.ok b ↔ ∃ a, x = Except.ok a ∧ f a = Except.ok b := by
  cases x <;> simp [ok_bind, error_bind]

/-- `orExit` succeeds exactly on a present (parsed) value. -/
theorem orExit_eq_ok {α : Type} (o : Option α) (msg : String) (a : α) :
    orExit o msg = Except.ok a ↔ o = some a := by
  cases o <;> simp [orExit]

/-- `orExitR` succeeds exactly when the underlying conversion does. -/
theorem orExitR_eq_ok {α : Type} (r : Except String α) (msg : String) (a : α) :
    orExitR r msg = Except.ok a ↔ r = Except.ok a := by
  cases r <;> simp [orExitR]

/-- A set of matches in which every option parses, mirroring the `clap`
default values of `app.rs`. -/
def sampleMatches : ArgMatches :=
  { corpus := "corpus.txt"
    output := "out.fifu"
    buckets := some 21
    context := some 10
    context_mincount := some 5
    context_discard := some 1
    dependency_depth := some 1
    dims := some 300
    discard := some 1
    epochs := some 15
    lr := some 1
    mincount := some 5
    minn := some 3
    maxn := some 6
    model := "skipgram"
    ngram_mincount := some 5
    ns := some 5
    subwords := "buckets"
    threads := none
    zipf := some 1
    untyped_deps := false
    normalize_context := false
    projectivize := false
    use_root := false }

/-- A successful `common_config_from_matches` run pins every option parse
and every configuration field. -/
theorem common_config_ok_elim {m : ArgMatches} {cfg : CommonConfig}
    (h : common_config_from_matches m = Except.ok cfg) :
    m.dims = some cfg.dims ∧ m.epochs = some cfg.epochs ∧ m.lr = some cfg.lr
    ∧ m.ns = some cfg.negative_samples ∧ m.zipf = some cfg.zipf_exponent
    ∧ cfg.loss = LossType.LogisticNegativeSampling := by
  unfold common_config_from_matches at h
  rcases (bind_eq_ok_iff _ _ _).mp h with ⟨d, hd, h⟩
  rcases (bind_eq_ok_iff _ _ _).mp h with ⟨e, he, h⟩
  rcases (bind_eq_ok_iff _ _ _).mp h with ⟨l, hl, h⟩
  rcases (bind_eq_ok_iff _ _ _).mp h with ⟨n, hn, h⟩
  rcases (bind_eq_ok_iff _ _ _).mp h with ⟨z, hz, h⟩
  rw [orExit_eq_ok] at hd he hl hn hz
  rw [Except.ok.injEq] at h
  subst h
  exact ⟨hd, he, hl, hn, hz, rfl⟩

/-- C10: `TrainInfo::new` stores its arguments, sets `start_datetime` to the
current time and `end_datetime` to `None`; `set_end` changes only
`end_datetime`, to `Some` of the current time. -/
theorem trainInfo_new_set_end_spec :
    (∀ (corpus output : String) (n_threads : Nat) (now : String),
      (TrainInfo.new corpus output n_threads now).end_datetime = none
      ∧ (TrainInfo.new corpus output n_threads now).corpus = corpus
      ∧ (TrainInfo.new corpus output n_threads now).output = output
      ∧ (TrainInfo.new corpus output n_threads now).n_threads = n_threads
      ∧ (TrainInfo.new corpus output n_threads now).start_datetime = now)
    ∧ (∀ (t : TrainInfo) (now2 : String),
      (t.set_end now2).end_datetime = some now2
      ∧ (t.set_end now2).corpus = t.corpus
      ∧ (t.set_end now2).output = t.output
      ∧ (t.set_end now2).n_threads = t.n_threads
      ∧ (t.set_end now2).start_datetime = t.start_datetime) := by
  refine ⟨fun _ _ _ _ => ?_, fun _ _ => ?_⟩ <;>
    simp [TrainInfo.new, TrainInfo.set_end]

/-- C5: string conversion to `ModelType` succeeds exactly on `"skipgram"`,
`"structgram"` and `"dirgram"`, byte conversion exactly on `0`, `1` and `2`,
mapping to `SkipGram`, `StructuredSkipGram` and `DirectionalSkipgram` in that
order, with an error on every other input. -/
theorem modelType_conversion_spec :
    ModelType.try_from_str "skipgram" = Except.ok ModelType.SkipGram
    ∧ ModelType.try_from_str "structgram" = Except.ok ModelType.StructuredSkipGram
    ∧ ModelType.try_from_str "dirgram" = Except.ok ModelType.DirectionalSkipgram
    ∧ (∀ s : String, s ≠ "skipgram" → s ≠ "structgram" → s ≠ "dirgram" →
        ModelType.try_from_str s = Except.error ("Unknown model type: " ++ s))
    ∧ ModelType.try_from_u8 0 = Except.ok ModelType.SkipGram
    ∧ ModelType.try_from_u8 1 = Except.ok ModelType.StructuredSkipGram
    ∧ ModelType.try_from_u8 2 = Except.ok ModelType.DirectionalSkipgram
    ∧ (∀ b : Nat, b ≠ 0 → b ≠ 1 → b ≠ 2 →
        ModelType.try_from_u8 b = Except.error ("Unknown model type: " ++ toString b)) := by
  refine ⟨rfl, rfl, rfl, ?_, rfl, rfl, rfl, ?_⟩
  · intro s h1 h2 h3
    simp [ModelType.try_from_str, h1, h2, h3]
  · intro b h1 h2 h3
    rcases b with _ | _ | _ | n
    · exact absurd rfl h1
    · exact absurd rfl h2
    · exact absurd rfl h3
    · rfl

/-- Witness for C5 at the concrete out-of-range inputs `"foo"` and `7`. -/
theorem modelType_conversion_witness :
    ModelType.try_from_str "foo" = Except.error ("Unknown model type: " ++ "foo")
    ∧ ModelType.try_from_u8 7 = Except.error ("Unknown model type: " ++ toString 7) :=
  ⟨modelType_conversion_spec.2.2.2.1 "foo" (by decide) (by decide) (by decide),
   modelType_conversion_spec.2.2.2.2.2.2.2 7 (by decide) (by decide) (by decide)⟩

/-- C7: `depembeds_config_from_matches` sets `depth` to the parsed
`dependency_depth` value and each flag exactly when it is present. -/
theorem depembeds_config_from_matches_spec :
    ∀ (m : ArgMatches) (d : Nat), m.dependency_depth = some d →
      depembeds_config_from_matches m = Except.ok
        { depth := d
          untyped := m.untyped_deps
          normalize := m.normalize_context
          projectivize := m.projectivize
          use_root := m.use_root } := by
  intro m d h
  unfold depembeds_config_from_matches
  rw [bind_eq_ok_iff]
  exact ⟨d, (orExit_eq_ok _ _ _).mpr h, rfl⟩

/-- Witness for C7: the sample matches, whose dependency depth parses to 1
and whose flags are all absent. -/
theorem depembeds_config_from_matches_witness :
    depembeds_config_from_matches sampleMatches = Except.ok
      { depth := 1
        untyped := false
        normalize := false
        projectivize := false
        use_root := false } :=
  depembeds_config_from_matches_spec sampleMatches 1 rfl

/-- C8: every successfully constructed `CommonConfig` has the
`LogisticNegativeSampling` loss; byte conversion to `LossType` succeeds only
on `0`; `LossType` has no other inhabitant. -/
theorem loss_type_spec :
    (∀ (m : ArgMatches) (cfg : CommonConfig),
        common_config_from_matches m = Except.ok cfg →
        cfg.loss = LossType.LogisticNegativeSampling)
    ∧ LossType.try_from_u8 0 = Except.ok LossType.LogisticNegativeSampling
    ∧ (∀ b : Nat, b ≠ 0 →
        LossType.try_from_u8 b = Except.error ("Unknown model type: " ++ toString b))
    ∧ (∀ l : LossType, l = LossType.LogisticNegativeSampling) := by
  refine ⟨fun m cfg h => (common_config_ok_elim h).2.2.2.2.2, rfl, ?_, ?_⟩
  · intro b hb
    rcases b with _ | n
    · exact absurd rfl hb
    · rfl
  · intro l
    cases l
    rfl

/-- Witness for C8 at the sample matches and the concrete byte `3`. -/
theorem loss_type_witness :
    (CommonConfig.loss
      { loss := LossType.LogisticNegativeSampling
        dims := 300
        epochs := 15
        lr := 1
        negative_samples := 5
        zipf_exponent := 1 }) = LossType.LogisticNegativeSampling
    ∧ LossType.try_from_u8 3 = Except.error ("Unknown model type: " ++ toString 3) :=
  ⟨loss_type_spec.1 sampleMatches
      { loss := LossType.LogisticNegativeSampling
        dims := 300
        epochs := 15
        lr := 1
        negative_samples := 5
        zipf_exponent := 1 } rfl,
   loss_type_spec.2.2.1 3 (by decide)⟩

/-- C4: `vocab_config_from_matches` selects the variant solely from the
`subwords` option: `"buckets"` yields `SubwordVocab` with the parsed bucket
exponent, `"ngrams"` yields `NGramVocab` with the parsed n-gram mincount,
`"none"` yields `SimpleVocab` with no indexer. -/
theorem vocab_config_from_matches_spec :
    ∀ (m : ArgMatches) (dt : ℚ) (mc mn mx : Nat),
      m.discard = some dt → m.mincount = some mc → m.minn = some mn →
      m.maxn = some mx →
      (m.subwords = "buckets" → ∀ b, m.buckets = some b →
        vocab_config_from_matches m = Except.ok (VocabConfig.SubwordVocab
          { discard_threshold := dt
            min_count := mc
            min_n := mn
            max_n := mx
            indexer := { buckets_exp := b } }))
      ∧ (m.subwords = "ngrams" → ∀ g, m.ngram_mincount = some g →
        vocab_config_from_matches m = Except.ok (VocabConfig.NGramVocab
          { discard_threshold := dt
            min_count := mc
            min_n := mn
            max_n := mx
            indexer := { min_ngram_count := g } }))
      ∧ (m.subwords = "none" →
        vocab_config_from_matches m = Except.ok (VocabConfig.SimpleVocab
          { min_count := mc
            discard_threshold := dt })) := by
  intro m dt mc mn mx hd hc hn hx
  refine ⟨?_, ?_, ?_⟩
  · intro hsw b hb
    simp [vocab_config_from_matches, orExit, hd, hc, hn, hx, hsw, hb, ok_bind]
  · intro hsw g hg
    simp [vocab_config_from_matches, orExit, hd, hc, hn, hx, hsw, hg, ok_bind]
  · intro hsw
    simp [vocab_config_from_matches, orExit, hd, hc, hn, hx, hsw, ok_bind]

/-- Witness for C4 at the sample matches, which select the bucket variant. -/
theorem vocab_config_from_matches_witness :
    vocab_config_from_matches sampleMatches = Except.ok
      (VocabConfig.SubwordVocab
        { discard_threshold := 1
          min_count := 5
          min_n := 3
          max_n := 6
          indexer := { buckets_exp := 21 } }) :=
  (vocab_config_from_matches_spec sampleMatches 1 5 3 6 rfl rfl rfl rfl).1
    rfl 21 rfl

/-- A successful `vocab_config_from_matches` run pins the shared subword
option parses, and the bucket exponent parse when the bucket variant was
selected. -/
theorem vocab_config_ok_elim {m : ArgMatches} {v : VocabConfig}
    (h : vocab_config_from_matches m = Except.ok v) :
    m.discard.isSome ∧ m.mincount.isSome ∧ m.minn.isSome ∧ m.maxn.isSome
    ∧ (m.subwords = "buckets" → m.buckets.isSome) := by
  unfold vocab_config_from_matches at h
  rcases (bind_eq_ok_iff _ _ _).mp h with ⟨dt, hdt, h⟩
  rcases (bind_eq_ok_iff _ _ _).mp h with ⟨mc, hmc, h⟩
  rcases (bind_eq_ok_iff _ _ _).mp h with ⟨mn, hmn, h⟩
  rcases (bind_eq_ok_iff _ _ _).mp h with ⟨mx, hmx, h⟩
  rw [orExit_eq_ok] at hdt hmc hmn hmx
  refine ⟨by simp [hdt], by simp [hmc], by simp [hmn], by simp [hmx], ?_⟩
  intro hsw
  rw [hsw] at h
  rw [if_pos rfl] at h
  rcases (bind_eq_ok_iff _ _ _).mp h with ⟨b, hb, -⟩
  rw [orExit_eq_ok] at hb
  simp [hb]

/-- A successful `skipgram_config_from_matches` run pins the context-size
parse and the model-type conversion. -/
theorem skipgram_config_ok_elim {m : ArgMatches} {sc : SkipGramConfig}
    (h : skipgram_config_from_matches m = Except.ok sc) :
    m.context = some sc.context_size
    ∧ ModelType.try_from_str m.model = Except.ok sc.model := by
  unfold skipgram_config_from_matches at h
  rcases (bind_eq_ok_iff _ _ _).mp h with ⟨cs, hcs, h⟩
  rcases (bind_eq_ok_iff _ _ _).mp h with ⟨mt, hmt, h⟩
  rw [orExit_eq_ok] at hcs
  rw [orExitR_eq_ok] at hmt
  rw [Except.ok.injEq] at h
  subst h
  exact ⟨hcs, hmt⟩

/-- A successful `depembeds_config_from_matches` run pins the depth parse. -/
theorem depembeds_config_ok_elim {m : ArgMatches} {dc : DepembedsConfig}
    (h : depembeds_config_from_matches m = Except.ok dc) :
    m.dependency_depth = some dc.depth := by
  unfold depembeds_config_from_matches at h
  rcases (bind_eq_ok_iff _ _ _).mp h with ⟨d, hd, h⟩
  rw [orExit_eq_ok] at hd
  rw [Except.ok.injEq] at h
  subst h
  exact hd

/-- A successful thread-count computation never saw a failed `threads`
parse. -/
theorem n_threads_ok_elim {threads : Option (Option Nat)} {num_cpus nt : Nat}
    (h : n_threads_from_matches threads num_cpus = Except.ok nt) :
    threads ≠ some none := by
  intro hc
  rw [hc] at h
  simp [n_threads_from_matches, orExit] at h

/-- When the `threads` option is absent, the thread count is
`min (num_cpus / 2) 20`. -/
theorem n_threads_none_elim {num_cpus nt : Nat}
    (h : n_threads_from_matches none num_cpus = Except.ok nt) :
    nt = min (num_cpus / 2) 20 := by
  simp [n_threads_from_matches] at h
  exact h.symm

/-- A successful `SkipGramApp::new` run decomposes into successful runs of
each sub-constructor, assembled unchanged into the app value. -/
theorem skipgram_new_ok_elim {m : ArgMatches} {num_cpus : Nat} {now : String}
    {app : SkipGramApp} (h : SkipGramApp.new m num_cpus now = Except.ok app) :
    ∃ nt common skipgram vocab,
      n_threads_from_matches m.threads num_cpus = Except.ok nt
      ∧ common_config_from_matches m = Except.ok common
      ∧ skipgram_config_from_matches m = Except.ok skipgram
      ∧ vocab_config_from_matches m = Except.ok vocab
      ∧ app = { train_info := TrainInfo.new m.corpus m.output nt now
                common_config := common
                skipgram_config := skipgram
                vocab_config := vocab } := by
  unfold SkipGramApp.new at h
  rcases (bind_eq_ok_iff _ _ _).mp h with ⟨nt, hnt, h⟩
  rcases (bind_eq_ok_iff _ _ _).mp h with ⟨cc, hcc, h⟩
  rcases (bind_eq_ok_iff _ _ _).mp h with ⟨sc, hsc, h⟩
  rcases (bind_eq_ok_iff _ _ _).mp h with ⟨vc, hvc, h⟩
  rw [Except.ok.injEq] at h
  exact ⟨nt, cc, sc, vc, hnt, hcc, hsc, hvc, h.symm⟩

/-- A successful `DepembedsApp::new` run decomposes into successful runs of
each sub-constructor; the output vocabulary is built from the parsed
`context_discard` and `context_mincount` values. -/
theorem depembeds_new_ok_elim {m : ArgMatches} {num_cpus : Nat} {now : String}
    {app : DepembedsApp} (h : DepembedsApp.new m num_cpus now = Except.ok app) :
    ∃ nt cd cm common dep vocab,
      n_threads_from_matches m.threads num_cpus = Except.ok nt
      ∧ m.context_discard = some cd
      ∧ m.context_mincount = some cm
      ∧ common_config_from_matches m = Except.ok common
      ∧ depembeds_config_from_matches m = Except.ok dep
      ∧ vocab_config_from_matches m = Except.ok vocab
      ∧ app = { train_info := TrainInfo.new m.corpus m.output nt now
                common_config := common
                depembeds_config := dep
                input_vocab_config := vocab
                output_vocab_config :=
                  { min_count := cm, discard_threshold := cd } } := by
  unfold DepembedsApp.new at h
  rcases (bind_eq_ok_iff _ _ _).mp h with ⟨nt, hnt, h⟩
  rcases (bind_eq_ok_iff _ _ _).mp h with ⟨cd, hcd, h⟩
  rcases (bind_eq_ok_iff _ _ _).mp h with ⟨cm, hcm, h⟩
  rcases (bind_eq_ok_iff _ _ _).mp h with ⟨cc, hcc, h⟩
  rcases (bind_eq_ok_iff _ _ _).mp h with ⟨dc, hdc, h⟩
  rcases (bind_eq_ok_iff _ _ _).mp h with ⟨vc, hvc, h⟩
  rw [orExit_eq_ok] at hcd hcm
  rw [Except.ok.injEq] at h
  exact ⟨nt, cd, cm, cc, dc, vc, hnt, hcd, hcm, hcc, hdc, hvc, h.symm⟩

/-- C9: when the `threads` option is absent, both app constructors default
the worker-thread count to `min(logical_cpus / 2, 20)`; this default never
exceeds 20 and is 0 on a single-CPU machine. -/
theorem default_thread_count_spec :
    ∀ (m : ArgMatches) (num_cpus : Nat) (now : String), m.threads = none →
      (∀ app, SkipGramApp.new m num_cpus now = Except.ok app →
        app.train_info.n_threads = min (num_cpus / 2) 20)
      ∧ (∀ app, DepembedsApp.new m num_cpus now = Except.ok app →
        app.train_info.n_threads = min (num_cpus / 2) 20)
      ∧ min (num_cpus / 2) 20 ≤ 20
      ∧ (num_cpus = 1 → min (num_cpus / 2) 20 = 0) := by
  intro m num_cpus now hth
  refine ⟨?_, ?_, min_le_right _ _, ?_⟩
  · intro app happ
    obtain ⟨nt, _, _, _, hnt, _, _, _, rfl⟩ := skipgram_new_ok_elim happ
    rw [hth] at hnt
    simpa [TrainInfo.new] using n_threads_none_elim hnt
  · intro app happ
    obtain ⟨nt, _, _, _, _, _, hnt, _, _, _, _, _, rfl⟩ :=
      depembeds_new_ok_elim happ
    rw [hth] at hnt
    simpa [TrainInfo.new] using n_threads_none_elim hnt
  · intro h1
    subst h1
    rfl

/-- Witness for C9: the sample matches leave the `threads` option absent;
with 5 logical CPUs the default is at most 20, with 1 it is 0. -/
theorem default_thread_count_witness :
    min (5 / 2) 20 ≤ 20 ∧ min (1 / 2) 20 = 0 :=
  ⟨(default_thread_count_spec sampleMatches 5 "t" rfl).2.2.1,
   (default_thread_count_spec sampleMatches 1 "t" rfl).2.2.2 rfl⟩

/-- C6: in every constructed `DepembedsApp`, the output vocabulary
configuration is built exactly from the parsed `context_mincount` and
`context_discard` options, the input vocabulary comes from
`vocab_config_from_matches` (the plain `mincount`/`discard` options), the
input side is unaffected by the context options, and the output side is
unaffected by the plain `mincount`/`discard` options. -/
theorem depembeds_vocab_independence_spec :
    ∀ (m : ArgMatches) (num_cpus : Nat) (now : String) (app : DepembedsApp),
      DepembedsApp.new m num_cpus now = Except.ok app →
      m.context_mincount = some app.output_vocab_config.min_count
      ∧ m.context_discard = some app.output_vocab_config.discard_threshold
      ∧ vocab_config_from_matches m = Except.ok app.input_vocab_config
      ∧ (∀ (x : Option Nat) (y : Option ℚ),
          vocab_config_from_matches
            { m with context_mincount := x, context_discard := y }
            = vocab_config_from_matches m)
      ∧ (∀ (x : Option Nat) (y : Option ℚ) (app2 : DepembedsApp),
          DepembedsApp.new { m with mincount := x, discard := y } num_cpus now
            = Except.ok app2 →
          app2.output_vocab_config = app.output_vocab_config) := by
  intro m num_cpus now app happ
  obtain ⟨nt, cd, cm, cc, dc, vc, hnt, hcd, hcm, hcc, hdc, hvc, rfl⟩ :=
    depembeds_new_ok_elim happ
  refine ⟨by simpa using hcm, by simpa using hcd, by simpa using hvc,
    fun x y => rfl, ?_⟩
  intro x y app2 happ2
  obtain ⟨nt2, cd2, cm2, cc2, dc2, vc2, hnt2, hcd2, hcm2, _, _, _, rfl⟩ :=
    depembeds_new_ok_elim happ2
  have e1 : cm2 = cm := by
    have : m.context_mincount = some cm2 := hcm2
    rw [hcm] at this
    exact (Option.some.injEq _ _).mp this.symm
  have e2 : cd2 = cd := by
    have : m.context_discard = some cd2 := hcd2
    rw [hcd] at this
    exact (Option.some.injEq _ _).mp this.symm
  simp [e1, e2]

/-- The `DepembedsApp` produced by the sample matches with 4 CPUs. -/
def sampleDepApp : DepembedsApp :=
  { train_info :=
      { corpus := "corpus.txt"
        output := "out.fifu"
        n_threads := 2
        start_datetime := "t"
        end_datetime := none }
    common_config :=
      { loss := LossType.LogisticNegativeSampling
        dims := 300
        epochs := 15
        lr := 1
        negative_samples := 5
        zipf_exponent := 1 }
    depembeds_config :=
      { depth := 1
        use_root := false
        normalize := false
        projectivize := false
        untyped := false }
    input_vocab_config := VocabConfig.SubwordVocab
      { discard_threshold := 1
        min_count := 5
        min_n := 3
        max_n := 6
        indexer := { buckets_exp := 21 } }
    output_vocab_config := { min_count := 5, discard_threshold := 1 } }

/-- Witness for C6 at the sample matches. -/
theorem depembeds_vocab_independence_witness :
    sampleMatches.context_mincount = some sampleDepApp.output_vocab_config.min_count
    ∧ sampleMatches.context_discard = some sampleDepApp.output_vocab_config.discard_threshold :=
  ⟨(depembeds_vocab_independence_spec sampleMatches 4 "t" sampleDepApp rfl).1,
   (depembeds_vocab_independence_spec sampleMatches 4 "t" sampleDepApp rfl).2.1⟩

/-- C3: any invalid (unparseable) hyperparameter among `dims`, `epochs`,
`lr`, `ns`, `zipf`, `mincount`, `minn`, `maxn`, `context`, `threads`,
`buckets` (when the bucket variant is selected) or `dependency_depth` makes
the corresponding app constructor abort with a message; no partially built
configuration is returned. -/
theorem config_error_abort_spec :
    ∀ (m : ArgMatches) (num_cpus : Nat) (now : String),
      ((m.dims = none ∨ m.epochs = none ∨ m.lr = none ∨ m.ns = none
        ∨ m.zipf = none ∨ m.mincount = none ∨ m.minn = none ∨ m.maxn = none
        ∨ m.context = none ∨ m.threads = some none
        ∨ (m.subwords = "buckets" ∧ m.buckets = none)) →
        ∃ msg, SkipGramApp.new m num_cpus now = Except.error msg)
      ∧ ((m.dims = none ∨ m.epochs = none ∨ m.lr = none ∨ m.ns = none
        ∨ m.zipf = none ∨ m.mincount = none ∨ m.minn = none ∨ m.maxn = none
        ∨ m.dependency_depth = none ∨ m.threads = some none
        ∨ (m.subwords = "buckets" ∧ m.buckets = none)) →
        ∃ msg, DepembedsApp.new m num_cpus now = Except.error msg) := by
  intro m num_cpus now
  constructor
  · intro hbad
    cases hres : SkipGramApp.new m num_cpus now with
    | error msg => exact ⟨msg, rfl⟩
    | ok app =>
      exfalso
      obtain ⟨nt, cc, sc, vc, hnt, hcc, hsc, hvc, -⟩ := skipgram_new_ok_elim hres
      obtain ⟨hdims, heps, hlr, hns, hzipf, -⟩ := common_config_ok_elim hcc
      obtain ⟨hctx, -⟩ := skipgram_config_ok_elim hsc
      obtain ⟨hdisc, hmc, hmn, hmx, hbk⟩ := vocab_config_ok_elim hvc
      have hth := n_threads_ok_elim hnt
      rcases hbad with h|h|h|h|h|h|h|h|h|h|⟨hsw, hbuck⟩ <;>
        simp_all
  · intro hbad
    cases hres : DepembedsApp.new m num_cpus now with
    | error msg => exact ⟨msg, rfl⟩
    | ok app =>
      exfalso
      obtain ⟨nt, cd, cm, cc, dc, vc, hnt, hcd, hcm, hcc, hdc, hvc, -⟩ :=
        depembeds_new_ok_elim hres
      obtain ⟨hdims, heps, hlr, hns, hzipf, -⟩ := common_config_ok_elim hcc
      have hdd := depembeds_config_ok_elim hdc
      obtain ⟨hdisc, hmc, hmn, hmx, hbk⟩ := vocab_config_ok_elim hvc
      have hth := n_threads_ok_elim hnt
      rcases hbad with h|h|h|h|h|h|h|h|h|h|⟨hsw, hbuck⟩ <;>
        simp_all

/-- Witness for C3: matches whose `dims` value fails to parse abort both
constructors. -/
theorem config_error_abort_witness :
    (∃ msg, SkipGramApp.new { sampleMatches with dims := none } 4 "t"
        = Except.error msg)
    ∧ (∃ msg, DepembedsApp.new { sampleMatches with dims := none } 4 "t"
        = Except.error msg) :=
  ⟨(config_error_abort_spec { sampleMatches with dims := none } 4 "t").1
      (Or.inl rfl),
   (config_error_abort_spec { sampleMatches with dims := none } 4 "t").2
      (Or.inl rfl)⟩

/-- C1: the SGD learning rate computed from the shared counter is the spec's
`initial_lr * (1 - tokens_processed / total_tokens_target)` floored at the
positive epsilon (that is, the max of the two), hence never zero or negative;
once the counter reaches or passes the target it is exactly the epsilon; and
the target is `epochs * n_types` exactly as displayed by `show_progress`,
whose in-loop display rate is itself positive. -/
theorem sgd_learning_rate_spec :
    ∀ (config : CommonConfig) (eps : ℚ) (n_tokens t : Nat), 0 < eps →
      sgd_learning_rate config.lr eps t (config.epochs * n_tokens)
          = max eps (show_progress_lr config n_tokens t)
      ∧ 0 < sgd_learning_rate config.lr eps t (config.epochs * n_tokens)
      ∧ (0 ≤ config.lr → 0 < config.epochs * n_tokens →
          config.epochs * n_tokens ≤ t →
          sgd_learning_rate config.lr eps t (config.epochs * n_tokens) = eps)
      ∧ (0 < config.lr → t < config.epochs * n_tokens →
          0 < show_progress_lr config n_tokens t) := by
  intro config eps n_tokens t heps
  have hmax : sgd_learning_rate config.lr eps t (config.epochs * n_tokens)
      = max eps (show_progress_lr config n_tokens t) := by
    unfold sgd_learning_rate show_progress_lr
    rw [mul_comm (1 - (t : ℚ) / ((config.epochs * n_tokens : Nat) : ℚ)) config.lr]
    by_cases hlt : config.lr *
        (1 - (t : ℚ) / ((config.epochs * n_tokens : Nat) : ℚ)) < eps
    · rw [if_pos hlt, max_eq_left hlt.le]
    · rw [if_neg hlt, max_eq_right (le_of_not_lt hlt)]
  refine ⟨hmax, ?_, ?_, ?_⟩
  · rw [hmax]
    exact lt_of_lt_of_le heps (le_max_left _ _)
  · intro hlr hTpos hTle
    have hT : (0 : ℚ) < ((config.epochs * n_tokens : Nat) : ℚ) := by
      exact_mod_cast hTpos
    have hr : (1 : ℚ) ≤ (t : ℚ) / ((config.epochs * n_tokens : Nat) : ℚ) := by
      rw [one_le_div hT]
      exact_mod_cast hTle
    have hL : config.lr *
        (1 - (t : ℚ) / ((config.epochs * n_tokens : Nat) : ℚ)) ≤ 0 :=
      mul_nonpos_of_nonneg_of_nonpos hlr (by linarith)
    unfold sgd_learning_rate
    rw [if_pos (lt_of_le_of_lt hL heps)]
  · intro hlr hTlt
    have hTpos : 0 < config.epochs * n_tokens :=
      lt_of_le_of_lt (Nat.zero_le t) hTlt
    have hT : (0 : ℚ) < ((config.epochs * n_tokens : Nat) : ℚ) := by
      exact_mod_cast hTpos
    have hr : (t : ℚ) / ((config.epochs * n_tokens : Nat) : ℚ) < 1 := by
      rw [div_lt_one hT]
      exact_mod_cast hTlt
    unfold show_progress_lr
    exact mul_pos (by linarith) hlr

/-- Witness for C1 at `initial_lr = 1`, `eps = 1/100`, a target of 30 tokens
and a counter past the target. -/
theorem sgd_learning_rate_witness :
    (0 : ℚ) < sgd_learning_rate 1 (1 / 100) 100 30
    ∧ sgd_learning_rate 1 (1 / 100) 100 30 = 1 / 100 :=
  ⟨(sgd_learning_rate_spec
      { loss := LossType.LogisticNegativeSampling
        dims := 300
        epochs := 15
        lr := 1
        negative_samples := 5
        zipf_exponent := 1 } (1 / 100) 2 100 (by norm_num)).2.1,
   (sgd_learning_rate_spec
      { loss := LossType.LogisticNegativeSampling
        dims := 300
        epochs := 15
        lr := 1
        negative_samples := 5
        zipf_exponent := 1 } (1 / 100) 2 100 (by norm_num)).2.2.1
      (by norm_num) (by norm_num) (by norm_num)⟩

/-- The polling loop returns exactly when some poll shows the counter at or
past `n_tokens * epochs`. -/
theorem show_progress_loop_isSome (config : CommonConfig)
    (n_tokens update_interval : Nat) :
    ∀ polls : List SGDPoll,
      (show_progress_loop config n_tokens update_interval polls).isSome
        ↔ ∃ s ∈ polls, n_tokens * config.epochs ≤ s.n_tokens_processed := by
  intro polls
  induction polls with
  | nil => simp [show_progress_loop]
  | cons s rest ih =>
    by_cases h : s.n_tokens_processed < n_tokens * config.epochs
    · have h2 : ¬ (n_tokens * config.epochs ≤ s.n_tokens_processed) :=
        not_le.mpr h
      simp [show_progress_loop, h, h2, ih]
    · have h2 : n_tokens * config.epochs ≤ s.n_tokens_processed :=
        not_lt.mp h
      simp [show_progress_loop, h, h2]

/-- When the polling loop returns, every sleep lasted the caller-supplied
update interval and the event trace ends with `finish`. -/
theorem show_progress_loop_events (config : CommonConfig)
    (n_tokens update_interval : Nat) :
    ∀ (polls : List SGDPoll) (evs : List ProgressEvent),
      show_progress_loop config n_tokens update_interval polls = some evs →
      (∀ d, ProgressEvent.sleep d ∈ evs → d = update_interval)
      ∧ evs.getLast? = some ProgressEvent.finish := by
  intro polls
  induction polls with
  | nil =>
    intro evs h
    simp [show_progress_loop] at h
  | cons s rest ih =>
    intro evs h
    rw [show_progress_loop] at h
    by_cases hc : s.n_tokens_processed < n_tokens * config.epochs
    · rw [if_pos hc] at h
      cases ho : show_progress_loop config n_tokens update_interval rest with
      | none => rw [ho] at h; simp at h
      | some evs0 =>
        rw [ho] at h
        rw [Option.map_some', Option.some.injEq] at h
        subst h
        obtain ⟨ihs, ihl⟩ := ih evs0 ho
        constructor
        · intro d hd
          rcases List.mem_append.mp hd with hd | hd
          · simp [poll_events] at hd
            exact hd
          · exact ihs d hd
        · have hne : evs0 ≠ [] := by
            intro hnil
            rw [hnil] at ihl
            simp at ihl
          rw [List.getLast?_append_of_ne_nil _ hne]
          exact ihl
    · rw [if_neg hc, Option.some.injEq] at h
      subst h
      constructor
      · intro d hd
        simp at hd
      · rfl

/-- C2: `show_progress` is purely observational. Its event trace is a pure
function of the configuration, the immutable input vocabulary and the
sequence of (counter, loss) polls — it is independent of the embedding-store
contents and writes nothing; it returns exactly when a poll shows the
processed-token counter at or past `epochs * n_types`; every sleep between
polls lasts the caller-supplied update interval, and the trace ends with the
bar's `finish`. -/
theorem show_progress_observational_spec :
    ∀ (config : CommonConfig) (model : TrainModel) (update_interval : Nat)
      (polls : List SGDPoll),
      ((show_progress config model update_interval polls).isSome
        ↔ ∃ s ∈ polls,
            model.input_vocab.n_types * config.epochs ≤ s.n_tokens_processed)
      ∧ (∀ evs, show_progress config model update_interval polls = some evs →
          (∀ d, ProgressEvent.sleep d ∈ evs → d = update_interval)
          ∧ evs.getLast? = some ProgressEvent.finish)
      ∧ (∀ model2 : TrainModel, model2.input_vocab = model.input_vocab →
          show_progress config model2 update_interval polls
            = show_progress config model update_interval polls) := by
  intro config model update_interval polls
  refine ⟨show_progress_loop_isSome config _ update_interval polls, ?_, ?_⟩
  · intro evs h
    exact show_progress_loop_events config _ update_interval polls evs h
  · intro model2 hm
    unfold show_progress
    rw [hm]

/-- Witness for C2: a two-poll run that crosses the 30-token target, whose
trace is one full iteration followed by `finish`. -/
theorem show_progress_observational_witness :
    show_progress
      { loss := LossType.LogisticNegativeSampling
        dims := 300
        epochs := 15
        lr := 1
        negative_samples := 5
        zipf_exponent := 1 }
      { input_vocab := { n_types := 2 }, embeddings := [0] } 7
      [ { n_tokens_processed := 10, train_loss := 1 },
        { n_tokens_processed := 30, train_loss := 1 } ]
      = show_progress
      { loss := LossType.LogisticNegativeSampling
        dims := 300
        epochs := 15
        lr := 1
        negative_samples := 5
        zipf_exponent := 1 }
      { input_vocab := { n_types := 2 }, embeddings := [2, 3] } 7
      [ { n_tokens_processed := 10, train_loss := 1 },
        { n_tokens_processed := 30, train_loss := 1 } ] :=
  ((show_progress_observational_spec
      { loss := LossType.LogisticNegativeSampling
        dims := 300
        epochs := 15
        lr := 1
        negative_samples := 5
        zipf_exponent := 1 }
      { input_vocab := { n_types := 2 }, embeddings := [2, 3] } 7
      [ { n_tokens_processed := 10, train_loss := 1 },
        { n_tokens_processed := 30, train_loss := 1 } ]).2.2
    { input_vocab := { n_types := 2 }, embeddings := [0] } rfl)

end FinalFrontier
